import Mathlib

/-
Verification of the ModBot moderation engine against its specification.

Shallow embedding of:
  - the webhook check function (src/app/rules/webhook.ts),
  - the authorization helpers and token-gating validators (lib/utils.server),
  - the manual moderation actions and audit-log pagination of the channel
    logs route, and the channel settings action (deleteChannel).

External effects (the axios POST, the on-chain reads, the warpcast unhide
call) are modelled by passing their outcome as an explicit argument; the
Prisma database is modelled as an explicit record of row lists threaded
through each action.
-/

/- ## Webhook check function (src/app/rules/webhook.ts) -/

/-- A rule check result `{ result, message }` as returned by every check
function, in particular by `webhook`. -/
structure CheckResult where
  result : Bool
  message : String
deriving Repr, DecidableEq

/-- JavaScript `s.substring(0, n)`: the first `n` characters of `s`. -/
def jsSubstring (s : String) (n : Nat) : String :=
  ⟨s.data.take n⟩

/-- The default message chosen in the then-branch of `webhook` when the body
message is absent or empty: depends only on whether the status is 200. -/
def defaultWebhookMessage (status : Nat) : String :=
  if status == 200 then "Webhook rule triggered" else "Webhook rule did not trigger"

/-- Outcome of the axios POST inside `webhook`: either a response accepted by
`validateStatus` (carrying its status and the optional string `message` field
of the body), or an error reaching the catch-branch; `isTimeout` is true when
`err.code === "ECONNABORTED"`. -/
inductive WebhookOutcome where
  | response (status : Nat) (messageField : Option String)
  | error (isTimeout : Bool)
deriving Repr, DecidableEq

/-- The then-branch of `webhook`:
`let message = response.data.message?.substring(0, 75)`, replaced by the
default when falsy, and `result: response.status === 200`. -/
def webhookOnResponse (status : Nat) (messageField : Option String) : CheckResult :=
  let truncated := messageField.map (fun s => jsSubstring s 75)
  let message :=
    match truncated with
    | some s => if s == "" then defaultWebhookMessage status else s
    | none => defaultWebhookMessage status
  { result := status == 200, message := message }

/-- The `webhook` check function. `failureMode` comes from `rule.args`
(absent is modelled as `none`); the function is total: the catch-branch turns
every request error into a `CheckResult`, so no outcome throws past this
boundary. The timeout messages interpolate `maxTimeout / 1000 = 5`. -/
def webhook (failureMode : Option String) : WebhookOutcome → CheckResult
  | .response status messageField => webhookOnResponse status messageField
  | .error isTimeout =>
    if isTimeout then
      { result := failureMode == some "trigger",
        message :=
          if failureMode == some "trigger" then
            "Webhook didn\x27t respond within 5s, rule is set to trigger on failure"
          else
            "Webhook did not respond within 5s, rule is set to not trigger on failure. " }
    else
      { result := failureMode == some "trigger",
        message :=
          if failureMode == some "trigger" then
            "Webhook failed but rule is set to trigger on failure"
          else
            "Webhook failed and rule is set to not trigger on failure" }

/- ## Helper lemmas about the webhook model -/

theorem jsSubstring_eq_empty_iff {s : String} {n : Nat} (hn : n ≠ 0) :
    jsSubstring s n = "" ↔ s = "" := by
  cases s with
  | mk l =>
    simp only [jsSubstring, String.ext_iff, List.take_eq_nil_iff, hn, false_or]

theorem defaultWebhookMessage_bounds (status : Nat) :
    0 < (defaultWebhookMessage status).length ∧
      (defaultWebhookMessage status).length ≤ 75 := by
  unfold defaultWebhookMessage
  split <;> exact ⟨by decide, by decide⟩

theorem webhookOnResponse_message_bounds (status : Nat) (mf : Option String) :
    0 < (webhookOnResponse status mf).message.length ∧
      (webhookOnResponse status mf).message.length ≤ 75 := by
  cases mf with
  | none => exact defaultWebhookMessage_bounds status
  | some body =>
    have hmsg : (webhookOnResponse status (some body)).message =
        if jsSubstring body 75 == "" then defaultWebhookMessage status
        else jsSubstring body 75 := rfl
    rw [hmsg]
    by_cases h : jsSubstring body 75 = ""
    · rw [if_pos (beq_iff_eq.mpr h)]
      exact defaultWebhookMessage_bounds status
    · rw [if_neg (by simpa using h)]
      have hdata : body.data.take 75 ≠ [] := by
        intro hnil
        exact h (String.ext hnil)
      constructor
      · exact List.length_pos.mpr hdata
      · show (body.data.take 75).length ≤ 75
        rw [List.length_take]
        exact inf_le_left

/- ## Claim theorems about the webhook check -/

/-- C1: for every HTTP response accepted by the webhook check function, a
status of 200 yields `result = true` and a status of 400 yields
`result = false` (both are handled by the then-branch, i.e. as successful
calls); the message is the body message field truncated to 75 characters when
that field is a non-empty string, and otherwise defaults to
"Webhook rule triggered" on 200 and "Webhook rule did not trigger" on 400. -/
theorem C1_webhook_accepted_response (fm mf : Option String) :
    (webhook fm (.response 200 mf)).result = true ∧
    (webhook fm (.response 400 mf)).result = false ∧
    (∀ body, mf = some body → body ≠ "" →
      (webhook fm (.response 200 mf)).message = jsSubstring body 75 ∧
      (webhook fm (.response 400 mf)).message = jsSubstring body 75) ∧
    (mf = none ∨ mf = some "" →
      (webhook fm (.response 200 mf)).message = "Webhook rule triggered" ∧
      (webhook fm (.response 400 mf)).message = "Webhook rule did not trigger") := by
  refine ⟨rfl, rfl, ?_, ?_⟩
  · rintro body rfl hne
    have h75 : ¬(jsSubstring body 75 = "") := fun h =>
      hne ((jsSubstring_eq_empty_iff (by decide)).mp h)
    have hcond : (jsSubstring body 75 == "") = false := by simpa using h75
    constructor
    · show (if jsSubstring body 75 == "" then defaultWebhookMessage 200
        else jsSubstring body 75) = jsSubstring body 75
      rw [hcond]
      rfl
    · show (if jsSubstring body 75 == "" then defaultWebhookMessage 400
        else jsSubstring body 75) = jsSubstring body 75
      rw [hcond]
      rfl
  · rintro (rfl | rfl) <;> exact ⟨rfl, rfl⟩

/-- Witness for C1 at the spec scenario: a 200 response with body
`{"message":"ok"}` produces `{result: true, message: "ok"}`. -/
theorem C1_webhook_accepted_response_witness :
    (webhook (some "doNotTrigger") (.response 200 (some "ok"))).result = true ∧
    (webhook (some "doNotTrigger") (.response 200 (some "ok"))).message = jsSubstring "ok" 75 := by
  refine ⟨(C1_webhook_accepted_response (some "doNotTrigger") (some "ok")).1, ?_⟩
  exact ((C1_webhook_accepted_response (some "doNotTrigger") (some "ok")).2.2.1
    "ok" rfl (by decide)).1

/-- C3: on every webhook call error the check does not throw (the model is a
total function of the caught error); it returns `result = true` when
`failureMode` is "trigger" and `result = false` when it is "doNotTrigger",
with a timeout-specific message on ECONNABORTED and a distinct
generic-failure message on any other error, both referencing the mode. -/
theorem C3_webhook_error_failure_mode (t : Bool) (fm : Option String) :
    (webhook (some "trigger") (.error t)).result = true ∧
    (webhook (some "doNotTrigger") (.error t)).result = false ∧
    (webhook (some "trigger") (.error true)).message =
      "Webhook didn\x27t respond within 5s, rule is set to trigger on failure" ∧
    (webhook (some "doNotTrigger") (.error true)).message =
      "Webhook did not respond within 5s, rule is set to not trigger on failure. " ∧
    (webhook (some "trigger") (.error false)).message =
      "Webhook failed but rule is set to trigger on failure" ∧
    (webhook (some "doNotTrigger") (.error false)).message =
      "Webhook failed and rule is set to not trigger on failure" ∧
    ((webhook fm (.error true)).message == (webhook fm (.error false)).message) = false := by
  cases t <;>
    refine ⟨rfl, rfl, rfl, rfl, rfl, rfl, ?_⟩ <;>
    cases h : fm == some "trigger" <;>
    simp [webhook, h]

/-- C7: every `CheckResult` the webhook check returns, on every success and
failure branch, carries a nonempty message of at most 75 characters; an
over-long body message is truncated, never an error. -/
theorem C7_webhook_message_invariant (fm : Option String) (o : WebhookOutcome) :
    0 < (webhook fm o).message.length ∧ (webhook fm o).message.length ≤ 75 := by
  cases o with
  | response status mf => exact webhookOnResponse_message_bounds status mf
  | error t =>
    cases t <;> cases h : fm == some "trigger" <;> simp [webhook, h] <;> decide

/-- C10 counterexample: the accepted success status 204 with a body message
"custom" yields `result = false` but message "custom" — not the default
"Webhook rule did not trigger" that the claim asserts for every accepted
success status other than 200. -/
theorem C10_counterexample :
    (webhook none (.response 204 (some "custom"))).result = false ∧
    (webhook none (.response 204 (some "custom"))).message = "custom" ∧
    ((webhook none (.response 204 (some "custom"))).message ==
      "Webhook rule did not trigger") = false := by
  refine ⟨rfl, by decide, by decide⟩

/-- C10 (amended): the webhook check returns `result = true` exactly when the
response status is 200 or the request errors with `failureMode` exactly
"trigger"; any other accepted success status (201-299) yields
`result = false`, with the default message "Webhook rule did not trigger"
when the body message field is absent or empty (a non-empty body message is
returned truncated instead); on error any `failureMode` other than "trigger",
including an absent one, yields `result = false`. -/
theorem C10_webhook_result_characterization (fm : Option String) (o : WebhookOutcome) :
    ((webhook fm o).result = true ↔
      (∃ mf, o = .response 200 mf) ∨ ((∃ t, o = .error t) ∧ fm = some "trigger")) ∧
    (∀ s mf, 201 ≤ s → s ≤ 299 →
      (webhook fm (.response s mf)).result = false ∧
      (mf = none ∨ mf = some "" →
        (webhook fm (.response s mf)).message = "Webhook rule did not trigger")) := by
  constructor
  · cases o with
    | response s mf =>
      show ((s == 200) = true) ↔ _
      simp [beq_iff_eq]
    | error t =>
      cases t <;>
        · show ((fm == some "trigger") = true) ↔ _
          simp [beq_iff_eq]
  · intro s mf h1 h2
    have hne : (s == 200) = false := by
      apply beq_eq_false_iff_ne.mpr
      omega
    constructor
    · show (s == 200) = false
      exact hne
    · rintro (rfl | rfl) <;>
        · show defaultWebhookMessage s = _
          unfold defaultWebhookMessage
          rw [hne]
          decide

/-- Witness for C10 at concrete inputs: a timeout with failureMode "trigger"
triggers, and an accepted 204 response does not. -/
theorem C10_webhook_result_characterization_witness :
    (webhook (some "trigger") (.error true)).result = true ∧
    (webhook (some "trigger") (.response 204 none)).result = false ∧
    (webhook (some "trigger") (.response 204 none)).message = "Webhook rule did not trigger" := by
  refine ⟨?_, ?_, ?_⟩
  · exact (C10_webhook_result_characterization (some "trigger") (.error true)).1.mpr
      (Or.inr ⟨⟨true, rfl⟩, rfl⟩)
  · exact ((C10_webhook_result_characterization (some "trigger")
      (.response 204 none)).2 204 none (by decide) (by decide)).1
  · exact ((C10_webhook_result_characterization (some "trigger")
      (.response 204 none)).2 204 none (by decide) (by decide)).2 (Or.inl rfl)

/- ## Persisted data model (Prisma rows) -/

/-- A `ModeratedChannel` row: `id`, `userId` (the lead) and the
`disableBannedList` flag updated by the settings action. -/
structure ModeratedChannel where
  id : String
  userId : String
  disableBannedList : Nat
deriving Repr, DecidableEq

/-- A `comods` row: co-moderator `fid` related to a channel by `channelId`. -/
structure Comod where
  fid : String
  channelId : String
deriving Repr, DecidableEq

/-- A `Cooldown` row, keyed uniquely by `(affectedUserId, channelId)`. -/
structure Cooldown where
  affectedUserId : String
  channelId : String
  active : Bool
deriving Repr, DecidableEq

/-- A `ModerationLog` row with the fields the modelled routes read or write.
`createdAt` is a timestamp (larger is newer). -/
structure ModerationLog where
  id : String
  action : String
  affectedUserFid : String
  affectedUsername : String
  affectedUserAvatarUrl : Option String
  actor : String
  channelId : String
  reason : String
  castHash : Option String
  createdAt : Nat
deriving Repr, DecidableEq

/-- A `CastLog` row (hash primary key, foreign-keyed to a channel). -/
structure CastLog where
  hash : String
  status : String
  channelId : String
deriving Repr, DecidableEq

/-- The database: one list of rows per modelled Prisma table. -/
structure Db where
  channels : List ModeratedChannel
  comods : List Comod
  cooldowns : List Cooldown
  moderationLogs : List ModerationLog
  castLogs : List CastLog
deriving Repr, DecidableEq

/- ## Authorization (canUserModerateChannel, lib/utils.server) -/

/-- The `{ result, channel? }` record returned by `canUserModerateChannel`. -/
structure ModerateCheckResult where
  result : Bool
  channel : Option ModeratedChannel
deriving Repr, DecidableEq

/-- The Prisma `where` clause of `canUserModerateChannel`: the channel has the
given id AND (some related comod row has the callers fid OR the caller is the
lead `userId`). -/
def canModeratePred (db : Db) (userId channelId : String) (c : ModeratedChannel) : Bool :=
  c.id == channelId &&
    (db.comods.any (fun m => m.channelId == c.id && m.fid == userId) || c.userId == userId)

/-- `canUserModerateChannel(userId, channelId)`: `{result: true, channel}`
when the `findUnique` query matches, `{result: false}` otherwise. -/
def canUserModerateChannel (db : Db) (userId channelId : String) : ModerateCheckResult :=
  match db.channels.find? (canModeratePred db userId channelId) with
  | some c => { result := true, channel := some c }
  | none => { result := false, channel := none }

/-- `requireUserCanModerateChannel`: returns the channel, or `none` modelling
the thrown `redirect("/", { status: 403 })` when `!result || !channel`. -/
def requireUserCanModerateChannel (db : Db) (userId channelId : String) :
    Option ModeratedChannel :=
  let r := canUserModerateChannel db userId channelId
  if r.result then r.channel else none

/- ## Manual moderation actions (channel logs route action) -/

/-- Outcome of a route action; every constructor other than `success` leaves
the database unchanged. `thrown` models an uncaught exception (a failed
tiny-invariant, a Prisma record-not-found, or a failed external call). -/
inductive ActionOutcome where
  | redirect403
  | invalid422
  | notFound404
  | thrown (msg : String)
  | success
deriving Repr, DecidableEq

/-- The unique-key predicate `affectedUserId_channelId` on `Cooldown` rows. -/
def cooldownKey (uid chid : String) (c : Cooldown) : Bool :=
  c.affectedUserId == uid && c.channelId == chid

/-- `db.cooldown.update({where: {affectedUserId_channelId}, data: {active: false}})`:
Prisma `update` throws (modelled `none`) when no row matches the unique key;
otherwise it sets `active := false` and returns the updated record, which is
always a truthy object, so the callers `if (updated)` guard always passes. -/
def cooldownUpdateInactive (db : Db) (uid chid : String) : Option Db :=
  if db.cooldowns.any (cooldownKey uid chid) then
    some { db with
      cooldowns := db.cooldowns.map
        (fun c => if cooldownKey uid chid c then { c with active := false } else c) }
  else none

/-- The `ModerationLog` row inserted by a manual action: copies the affected
user fields from the source log row, records the actor and channel, carries no
cast hash, and is stamped with the insertion time `now` (`id` is generated by
the database and irrelevant here, modelled as ""). -/
def mkActionLog (act : String) (src : ModerationLog) (actorId chid reason : String)
    (now : Nat) : ModerationLog :=
  { id := "", action := act, affectedUserFid := src.affectedUserFid,
    affectedUsername := src.affectedUsername,
    affectedUserAvatarUrl := src.affectedUserAvatarUrl, actor := actorId,
    channelId := chid, reason := reason, castHash := none, createdAt := now }

namespace ChannelLogs

/-- The channel logs route `action`: authorization, zod parse of
`{logId, intent}`, log lookup, then the end-cooldown / unmute / unhide
transition. `unhideOk` is the outcome of the external `unhide` call, `now` the
database insertion timestamp. Returns the HTTP-level outcome and the final
database state. -/
def action (db : Db) (actorId actorName chid : String)
    (logIdField intentField : Option String) (now : Nat) (unhideOk : Bool) :
    ActionOutcome × Db :=
  match requireUserCanModerateChannel db actorId chid with
  | none => (.redirect403, db)
  | some channel =>
    match logIdField, intentField with
    | some logId, some intent =>
      if intent == "end-cooldown" || intent == "unmute" || intent == "unhide" then
        match db.moderationLogs.find? (fun l => l.id == logId) with
        | none => (.notFound404, db)
        | some log =>
          if intent == "end-cooldown" then
            match cooldownUpdateInactive db log.affectedUserFid channel.id with
            | none => (.thrown "cooldown record not found", db)
            | some db1 =>
              (.success, { db1 with moderationLogs := db1.moderationLogs ++
                [mkActionLog "cooldownEnded" log actorId channel.id
                  ("Cooldown ended by @" ++ actorName) now] })
          else if intent == "unmute" then
            match cooldownUpdateInactive db log.affectedUserFid channel.id with
            | none => (.thrown "cooldown record not found", db)
            | some db1 =>
              (.success, { db1 with moderationLogs := db1.moderationLogs ++
                [mkActionLog "unmuted" log actorId channel.id
                  ("Unmuted by @" ++ actorName) now] })
          else
            match log.castHash with
            | none => (.thrown "castHash is required", db)
            | some h =>
              if h == "" then (.thrown "castHash is required", db)
              else if unhideOk then
                (.success, { db with moderationLogs := db.moderationLogs ++
                  [mkActionLog "unhide" log actorId channel.id
                    ("Unhidden by @" ++ actorName) now] })
              else (.thrown "unhide failed", db)
      else (.invalid422, db)
    | _, _ => (.invalid422, db)

end ChannelLogs

namespace ChannelSettings

/-- The channel settings route `action`: authorization, then either
`deleteChannel` (deleteMany comods / moderationLog / castLog rows of the
channel, then delete the `ModeratedChannel` row itself) or
`updateBannedListSetting` (update the `disableBannedList` flag only). -/
def action (db : Db) (actorId chid : String) (intentField : Option String)
    (followBannedList : Nat) : ActionOutcome × Db :=
  match requireUserCanModerateChannel db actorId chid with
  | none => (.redirect403, db)
  | some mc =>
    match intentField with
    | some intent =>
      if intent == "deleteChannel" then
        (.success,
          { channels := db.channels.filter (fun c => !(c.id == mc.id)),
            comods := db.comods.filter (fun m => !(m.channelId == mc.id)),
            cooldowns := db.cooldowns,
            moderationLogs := db.moderationLogs.filter (fun l => !(l.channelId == mc.id)),
            castLogs := db.castLogs.filter (fun cl => !(cl.channelId == mc.id)) })
      else if intent == "updateBannedListSetting" then
        (.success,
          { db with channels := db.channels.map (fun c =>
              if c.id == mc.id then { c with disableBannedList := followBannedList } else c) })
      else (.invalid422, db)
    | none => (.invalid422, db)

end ChannelSettings

/- ## Helper lemmas about authorization -/

theorem requireUserCanModerateChannel_id_eq {db : Db} {uid chid : String}
    {c : ModeratedChannel}
    (h : requireUserCanModerateChannel db uid chid = some c) : c.id = chid := by
  unfold requireUserCanModerateChannel canUserModerateChannel at h
  cases hf : db.channels.find? (canModeratePred db uid chid) with
  | none => rw [hf] at h; simp at h
  | some c' =>
    rw [hf] at h
    simp only [if_pos] at h
    have hc' : c' = c := by simpa using h
    subst hc'
    have hp := List.find?_some hf
    simp only [canModeratePred, Bool.and_eq_true, beq_iff_eq] at hp
    exact hp.1

/- ## Concrete database states used as witnesses and counterexamples -/

/-- A channel "memes" led by user "10", with no comods. -/
def exChannel : ModeratedChannel := { id := "memes", userId := "10", disableBannedList := 0 }

/-- An existing "cooldown" audit entry for user fid "42" in "memes". -/
def exCooldownLog : ModerationLog :=
  { id := "log1", action := "cooldown", affectedUserFid := "42", affectedUsername := "bob",
    affectedUserAvatarUrl := none, actor := "modbot", channelId := "memes",
    reason := "Spam", castHash := none, createdAt := 5 }

/-- An existing "hideQuietly" audit entry carrying a cast hash. -/
def exHideLog : ModerationLog :=
  { id := "log2", action := "hideQuietly", affectedUserFid := "42", affectedUsername := "bob",
    affectedUserAvatarUrl := none, actor := "modbot", channelId := "memes",
    reason := "Rule broken", castHash := some "0xabc", createdAt := 6 }

/-- An existing "hideQuietly" audit entry with no cast hash. -/
def exNoHashLog : ModerationLog :=
  { id := "log3", action := "hideQuietly", affectedUserFid := "42", affectedUsername := "bob",
    affectedUserAvatarUrl := none, actor := "modbot", channelId := "memes",
    reason := "Rule broken", castHash := none, createdAt := 7 }

/-- State with an already-inactive cooldown for ("42", "memes"). -/
def exDbInactive : Db :=
  { channels := [exChannel], comods := [],
    cooldowns := [{ affectedUserId := "42", channelId := "memes", active := false }],
    moderationLogs := [exCooldownLog], castLogs := [] }

/-- State with an active cooldown for ("42", "memes"). -/
def exDbActive : Db :=
  { channels := [exChannel], comods := [],
    cooldowns := [{ affectedUserId := "42", channelId := "memes", active := true }],
    moderationLogs := [exCooldownLog], castLogs := [] }

/-- State with hide entries, one with and one without a cast hash. -/
def exDbCast : Db :=
  { channels := [exChannel], comods := [],
    cooldowns := [], moderationLogs := [exHideLog, exNoHashLog], castLogs := [] }

/- ## Claim theorems about the manual moderation actions -/

/-- C2 counterexample: with the Cooldown row for ("42", "memes") already
inactive, the manual end-cooldown action still appends a ModerationLog entry
(Prisma `update` returns the record whether or not anything changed, so the
`if (updated)` guard always passes); and starting from an active cooldown,
calling end-cooldown twice in a row produces two "cooldownEnded" entries,
not one. -/
theorem C2_counterexample :
    ((ChannelLogs.action exDbInactive "10" "alice" "memes" (some "log1")
        (some "end-cooldown") 8 true).2.moderationLogs.length = 2) ∧
    (((ChannelLogs.action
        (ChannelLogs.action exDbActive "10" "alice" "memes" (some "log1")
          (some "end-cooldown") 8 true).2
        "10" "alice" "memes" (some "log1")
        (some "end-cooldown") 9 true).2.moderationLogs.filter
          (fun l => l.action == "cooldownEnded")).length = 2) := by
  exact ⟨rfl, rfl⟩

/-- C2 (amended): whenever the Cooldown row for
(log.affectedUserFid, channel.id) exists, the manual end-cooldown (resp.
unmute) action succeeds and appends exactly one "cooldownEnded" (resp.
"unmuted") ModerationLog entry regardless of whether the row was still
active, so each repeated call appends a further entry. -/
theorem C2_end_cooldown_logs_unconditionally (db : Db) (actor nm chid lid : String)
    (now : Nat) (uOk : Bool) (c : ModeratedChannel)
    (hc : requireUserCanModerateChannel db actor chid = some c)
    (L : ModerationLog) (hL : db.moderationLogs.find? (fun l => l.id == lid) = some L)
    (hcd : db.cooldowns.any (cooldownKey L.affectedUserFid c.id) = true) :
    ((ChannelLogs.action db actor nm chid (some lid) (some "end-cooldown") now uOk).1 =
        .success ∧
      (ChannelLogs.action db actor nm chid (some lid)
          (some "end-cooldown") now uOk).2.moderationLogs =
        db.moderationLogs ++
          [mkActionLog "cooldownEnded" L actor c.id ("Cooldown ended by @" ++ nm) now]) ∧
    ((ChannelLogs.action db actor nm chid (some lid) (some "unmute") now uOk).1 =
        .success ∧
      (ChannelLogs.action db actor nm chid (some lid)
          (some "unmute") now uOk).2.moderationLogs =
        db.moderationLogs ++
          [mkActionLog "unmuted" L actor c.id ("Unmuted by @" ++ nm) now]) := by
  simp only [ChannelLogs.action, hc, hL, cooldownUpdateInactive, hcd, if_true]
  simp

/-- Witness for the amended C2 at a concrete state with an active cooldown. -/
theorem C2_end_cooldown_logs_unconditionally_witness :
    (ChannelLogs.action exDbActive "10" "alice" "memes" (some "log1")
        (some "end-cooldown") 8 true).2.moderationLogs =
      exDbActive.moderationLogs ++
        [mkActionLog "cooldownEnded" exCooldownLog "10" "memes"
          ("Cooldown ended by @" ++ "alice") 8] :=
  ((C2_end_cooldown_logs_unconditionally exDbActive "10" "alice" "memes" "log1" 8 true
    exChannel rfl exCooldownLog rfl rfl).1).2

/-- C4: the manual unhide action fails with no ModerationLog entry written
when the referenced log row has no cast hash (a falsy hash fails the
tiny-invariant); with a hash present, a failing external unhide call
propagates with no log entry written, and a successful external call is
followed by exactly one "unhide" ModerationLog entry. -/
theorem C4_unhide_requires_hash (db : Db) (actor nm chid lid : String) (now : Nat)
    (c : ModeratedChannel) (hc : requireUserCanModerateChannel db actor chid = some c)
    (L : ModerationLog) (hL : db.moderationLogs.find? (fun l => l.id == lid) = some L) :
    (L.castHash = none ∨ L.castHash = some "" →
      ∀ uOk, ChannelLogs.action db actor nm chid (some lid) (some "unhide") now uOk =
        (.thrown "castHash is required", db)) ∧
    (∀ hsh, L.castHash = some hsh → (hsh == "") = false →
      (ChannelLogs.action db actor nm chid (some lid) (some "unhide") now false =
        (.thrown "unhide failed", db)) ∧
      (ChannelLogs.action db actor nm chid (some lid) (some "unhide") now true =
        (.success, { db with moderationLogs := db.moderationLogs ++
          [mkActionLog "unhide" L actor c.id ("Unhidden by @" ++ nm) now] }))) := by
  constructor
  · rintro (hnone | hempty) uOk
    · simp only [ChannelLogs.action, hc, hL]
      simp [hnone]
    · simp only [ChannelLogs.action, hc, hL]
      simp [hempty]
  · intro hsh hsome hne
    constructor <;>
      simp only [ChannelLogs.action, hc, hL] <;>
      simp [hsome, hne]

/-- Witness for C4 at concrete states: a missing hash fails the action with
the state unchanged, and a present hash with a successful external call
appends the "unhide" entry. -/
theorem C4_unhide_requires_hash_witness :
    (ChannelLogs.action exDbCast "10" "alice" "memes" (some "log3")
        (some "unhide") 9 true = (.thrown "castHash is required", exDbCast)) ∧
    (ChannelLogs.action exDbCast "10" "alice" "memes" (some "log2")
        (some "unhide") 9 true =
      (.success, { exDbCast with moderationLogs := exDbCast.moderationLogs ++
        [mkActionLog "unhide" exHideLog "10" "memes" ("Unhidden by @" ++ "alice") 9] })) := by
  constructor
  · exact (C4_unhide_requires_hash exDbCast "10" "alice" "memes" "log3" 9
      exChannel rfl exNoHashLog rfl).1 (Or.inl rfl) true
  · exact ((C4_unhide_requires_hash exDbCast "10" "alice" "memes" "log2" 9
      exChannel rfl exHideLog rfl).2 "0xabc" rfl (by decide)).2

/-- C6: `canUserModerateChannel` returns result true (and the channel)
exactly when the actor is the lead `userId` or one of the comods of a channel
with the requested id, and result false with no channel otherwise; an
unauthorized actor is rejected with the 403 redirect before any Cooldown
update or ModerationLog insert — the manual action leaves the database
unchanged. -/
theorem C6_authorization_guards_actions (db : Db) (uid nm chid : String) :
    ((canUserModerateChannel db uid chid).result = true ↔
      ∃ c ∈ db.channels, c.id = chid ∧
        ((∃ m ∈ db.comods, m.channelId = c.id ∧ m.fid = uid) ∨ c.userId = uid)) ∧
    ((canUserModerateChannel db uid chid).result =
      (canUserModerateChannel db uid chid).channel.isSome) ∧
    ((canUserModerateChannel db uid chid).result = false →
      ∀ lid int now uOk,
        ChannelLogs.action db uid nm chid lid int now uOk = (.redirect403, db)) := by
  have hres : (canUserModerateChannel db uid chid).result =
      (db.channels.find? (canModeratePred db uid chid)).isSome := by
    unfold canUserModerateChannel
    cases db.channels.find? (canModeratePred db uid chid) <;> rfl
  refine ⟨?_, ?_, ?_⟩
  · rw [hres, List.find?_isSome]
    simp [canModeratePred, List.any_eq_true]
  · unfold canUserModerateChannel
    cases db.channels.find? (canModeratePred db uid chid) <;> rfl
  · intro hfalse lid int now uOk
    have hnone : db.channels.find? (canModeratePred db uid chid) = none := by
      cases hf : db.channels.find? (canModeratePred db uid chid) with
      | none => rfl
      | some c => rw [hres, hf] at hfalse; simp at hfalse
    have hreq : requireUserCanModerateChannel db uid chid = none := by
      unfold requireUserCanModerateChannel canUserModerateChannel
      rw [hnone]
      rfl
    unfold ChannelLogs.action
    rw [hreq]

/-- Witness for C6: user "99", neither lead nor comod of "memes", is rejected
with the database unchanged. -/
theorem C6_authorization_guards_actions_witness :
    ChannelLogs.action exDbInactive "99" "eve" "memes" (some "log1") (some "unhide") 0 true =
      (.redirect403, exDbInactive) :=
  (C6_authorization_guards_actions exDbInactive "99" "eve" "memes").2.2 rfl
    (some "log1") (some "unhide") 0 true

/- ## Channel deletion (C9) -/

theorem cooldownUpdateInactive_moderationLogs {db db1 : Db} {u c : String}
    (h : cooldownUpdateInactive db u c = some db1) :
    db1.moderationLogs = db.moderationLogs := by
  unfold cooldownUpdateInactive at h
  split at h
  · cases h
    rfl
  · cases h

/-- The channel logs action never removes a ModerationLog entry: the initial
log list is always a sublist of the final one. -/
theorem channelLogsAction_extends_moderationLogs (db : Db) (a nm chid : String)
    (lid int : Option String) (now : Nat) (uOk : Bool) :
    List.Sublist db.moderationLogs
      (ChannelLogs.action db a nm chid lid int now uOk).2.moderationLogs := by
  unfold ChannelLogs.action
  repeat' split
  all_goals
    first
      | exact List.Sublist.refl _
      | exact List.sublist_append_left _ _
      | (rename_i db1 heq
         have hlogs := cooldownUpdateInactive_moderationLogs heq
         show List.Sublist db.moderationLogs (db1.moderationLogs ++ _)
         rw [hlogs]
         exact List.sublist_append_left _ _)

/-- A second channel and rows split across two channels, to exhibit the
frame property of channel deletion. -/
def exChannel2 : ModeratedChannel := { id := "art", userId := "11", disableBannedList := 0 }

/-- A log entry belonging to the other channel "art". -/
def exLogArt : ModerationLog :=
  { id := "log4", action := "cooldown", affectedUserFid := "77", affectedUsername := "carol",
    affectedUserAvatarUrl := none, actor := "modbot", channelId := "art",
    reason := "Spam", castHash := none, createdAt := 3 }

/-- Two channels with comods, logs and cast logs on each side. -/
def exDb9 : Db :=
  { channels := [exChannel, exChannel2],
    comods := [{ fid := "12", channelId := "memes" }, { fid := "13", channelId := "art" }],
    cooldowns := [],
    moderationLogs := [exCooldownLog, exLogArt],
    castLogs := [{ hash := "0x1", status := "hidden", channelId := "memes" },
      { hash := "0x2", status := "hidden", channelId := "art" }] }

/-- C9: the deleteChannel action removes exactly the comods, ModerationLog
and CastLog rows of the target channel and the ModeratedChannel row itself,
leaving rows of every other channel (and the cooldown table) unchanged; and
it is the only modelled path that deletes ModerationLog entries — the manual
logs action only ever appends, and the updateBannedListSetting intent leaves
the log table unchanged. -/
theorem C9_delete_channel_frame (db : Db) (uid chid : String) (fb : Nat)
    (c : ModeratedChannel) (hc : requireUserCanModerateChannel db uid chid = some c) :
    (∀ m, m ∈ (ChannelSettings.action db uid chid (some "deleteChannel") fb).2.comods ↔
      m ∈ db.comods ∧ (m.channelId == chid) = false) ∧
    (∀ l, l ∈ (ChannelSettings.action db uid chid (some "deleteChannel") fb).2.moderationLogs ↔
      l ∈ db.moderationLogs ∧ (l.channelId == chid) = false) ∧
    (∀ cl, cl ∈ (ChannelSettings.action db uid chid (some "deleteChannel") fb).2.castLogs ↔
      cl ∈ db.castLogs ∧ (cl.channelId == chid) = false) ∧
    (∀ ch, ch ∈ (ChannelSettings.action db uid chid (some "deleteChannel") fb).2.channels ↔
      ch ∈ db.channels ∧ (ch.id == chid) = false) ∧
    ((ChannelSettings.action db uid chid (some "deleteChannel") fb).2.cooldowns =
      db.cooldowns) ∧
    (∀ db2 a2 nm2 ch2 lid2 int2 now2 uOk2,
      List.Sublist db2.moderationLogs
        (ChannelLogs.action db2 a2 nm2 ch2 lid2 int2 now2 uOk2).2.moderationLogs) ∧
    (∀ db2 a2 ch2 int2 fb2, (int2 == some "deleteChannel") = false →
      (ChannelSettings.action db2 a2 ch2 int2 fb2).2.moderationLogs =
        db2.moderationLogs) := by
  have hid : c.id = chid := requireUserCanModerateChannel_id_eq hc
  have hact : (ChannelSettings.action db uid chid (some "deleteChannel") fb).2 =
      { channels := db.channels.filter (fun x => !(x.id == chid)),
        comods := db.comods.filter (fun m => !(m.channelId == chid)),
        cooldowns := db.cooldowns,
        moderationLogs := db.moderationLogs.filter (fun l => !(l.channelId == chid)),
        castLogs := db.castLogs.filter (fun cl => !(cl.channelId == chid)) } := by
    unfold ChannelSettings.action
    rw [hc]
    simp [hid]
  refine ⟨?_, ?_, ?_, ?_, ?_, ?_, ?_⟩
  · intro m
    rw [hact]
    simp [List.mem_filter]
  · intro l
    rw [hact]
    simp [List.mem_filter]
  · intro cl
    rw [hact]
    simp [List.mem_filter]
  · intro ch
    rw [hact]
    simp [List.mem_filter]
  · rw [hact]
  · intro db2 a2 nm2 ch2 lid2 int2 now2 uOk2
    exact channelLogsAction_extends_moderationLogs db2 a2 nm2 ch2 lid2 int2 now2 uOk2
  · intro db2 a2 ch2 int2 fb2 hne
    unfold ChannelSettings.action
    cases requireUserCanModerateChannel db2 a2 ch2 with
    | none => rfl
    | some mc =>
      cases int2 with
      | none => rfl
      | some intent =>
        have h' : (intent == "deleteChannel") = false := by simpa using hne
        simp only [h', Bool.false_eq_true, if_false]
        split <;> rfl

/-- Witness for C9: deleting "memes" from a two-channel state keeps the
"art" rows and the cooldown table. -/
theorem C9_delete_channel_frame_witness :
    (exLogArt ∈ (ChannelSettings.action exDb9 "10" "memes"
        (some "deleteChannel") 0).2.moderationLogs) ∧
    ((ChannelSettings.action exDb9 "10" "memes"
        (some "deleteChannel") 0).2.cooldowns = exDb9.cooldowns) := by
  constructor
  · exact ((C9_delete_channel_frame exDb9 "10" "memes" 0 exChannel rfl).2.1 exLogArt).mpr
      ⟨by decide, by decide⟩
  · exact (C9_delete_channel_frame exDb9 "10" "memes" 0 exChannel rfl).2.2.2.2.1

/- ## Audit log pagination (channel logs loader, getPageInfo, nextPage) -/

/-- A query parameter as seen through `parseInt`: absent (so the default
string is parsed instead), unparseable (`parseInt` returns NaN), or an
integer. -/
inductive Param where
  | absent
  | nan
  | int (n : Int)
deriving Repr, DecidableEq

/-- The `{page, pageSize, skip}` record returned by `getPageInfo`. -/
structure PageInfo where
  page : Int
  pageSize : Int
  skip : Int
deriving Repr, DecidableEq

/-- `const defaultPageSize = 50`. -/
def defaultPageSize : Int := 50

/-- `getPageInfo`: `page = Math.max(parseInt(page ?? "1"), 1)`,
`pageSize = Math.max(Math.min(parseInt(pageSize ?? "50"), 100), 0)`,
`skip = (page - 1) * pageSize`, each NaN-guarded on return. `none` models
NaN, which propagates through Math.max / Math.min and multiplication. -/
def getPageInfo (pageParam pageSizeParam : Param) : PageInfo :=
  let pageRaw : Option Int :=
    match pageParam with
    | .absent => some 1
    | .nan => none
    | .int n => some n
  let pageSizeRaw : Option Int :=
    match pageSizeParam with
    | .absent => some defaultPageSize
    | .nan => none
    | .int n => some n
  let page : Option Int := pageRaw.map (fun p => max p 1)
  let pageSize : Option Int := pageSizeRaw.map (fun s => max (min s 100) 0)
  let skip : Option Int :=
    match page, pageSize with
    | some p, some s => some ((p - 1) * s)
    | _, _ => none
  { page := page.getD 1, pageSize := pageSize.getD defaultPageSize, skip := skip.getD 0 }

/-- The Prisma `orderBy: { createdAt: "desc" }` relation: `a` may come
before `b` when `a` is at least as new. -/
def createdAtGe (a b : ModerationLog) : Prop := b.createdAt ≤ a.createdAt

instance : DecidableRel createdAtGe := fun a b => Nat.decLe b.createdAt a.createdAt

instance : IsTotal ModerationLog createdAtGe := ⟨fun a b => Nat.le_total b.createdAt a.createdAt⟩

instance : IsTrans ModerationLog createdAtGe := ⟨fun _ _ _ hab hbc => Nat.le_trans hbc hab⟩

/-- The loader moderationLog query: rows of the channel, ordered by
createdAt descending, with `skip` and `take: pageSize` applied. -/
def loaderModerationLogs (db : Db) (chid : String) (info : PageInfo) : List ModerationLog :=
  ((List.insertionSort createdAtGe
    (db.moderationLogs.filter (fun l => l.channelId == chid))).drop
      info.skip.toNat).take info.pageSize.toNat

/-- `nextPage = page + 1 > Math.ceil(total / pageSize) ? null : page + 1`
from the logs screen; for the nonnegative totals used here `Math.ceil` of the
JS division is the rounded-up integer quotient, and with `pageSize = 0` the
JS quotient is Infinity so the comparison is false. -/
def nextPage (page pageSize total : Int) : Option Int :=
  if pageSize == 0 then some (page + 1)
  else if page + 1 > (total + pageSize - 1) / pageSize then none
  else some (page + 1)

/-- One of 120 log entries in channel "gaming": entry `i` has createdAt `i`. -/
def exPagedLog (i : Nat) : ModerationLog :=
  { id := toString i, action := "hideQuietly", affectedUserFid := "42",
    affectedUsername := "bob", affectedUserAvatarUrl := none, actor := "modbot",
    channelId := "gaming", reason := "Rule broken", castHash := none, createdAt := i }

/-- A channel with 120 moderation logs. -/
def exDb120 : Db :=
  { channels := [{ id := "gaming", userId := "10", disableBannedList := 0 }],
    comods := [], cooldowns := [],
    moderationLogs := (List.range 120).map exPagedLog, castLogs := [] }

/-- C5 counterexample: for the request page=3 with an unparseable pageSize,
the effective page is 3 and the effective pageSize defaults to 50, but the
skip used by the query is 0, not (3-1)*50 = 100: the NaN propagates into the
skip product, which is guarded to 0 independently of the effective values. -/
theorem C5_counterexample :
    (getPageInfo (.int 3) .nan).page = 3 ∧
    (getPageInfo (.int 3) .nan).pageSize = 50 ∧
    (getPageInfo (.int 3) .nan).skip = 0 ∧
    ((getPageInfo (.int 3) .nan).skip ==
      ((getPageInfo (.int 3) .nan).page - 1) * (getPageInfo (.int 3) .nan).pageSize) =
      false := by
  refine ⟨by decide, by decide, by decide, by decide⟩

/-- C5 (amended): the effective pageSize lies in [0, 100] with default 50 and
the effective page is at least 1; `skip = (page - 1) * pageSize` holds
whenever the pageSize parameter is absent or numeric (when it is unparseable
the skip is guarded to 0 even though the effective page may exceed 1); the
returned entries are ordered by createdAt descending; and on a channel with
120 logs, page=1 pageSize=50 returns the 50 newest entries, page=3 returns
the remaining 20, and nextPage is null past the last page. -/
theorem C5_pagination (pp psp : Param) :
    (1 ≤ (getPageInfo pp psp).page ∧
      0 ≤ (getPageInfo pp psp).pageSize ∧
      (getPageInfo pp psp).pageSize ≤ 100 ∧
      (getPageInfo pp .absent).pageSize = 50) ∧
    (psp ≠ Param.nan →
      (getPageInfo pp psp).skip =
        ((getPageInfo pp psp).page - 1) * (getPageInfo pp psp).pageSize) ∧
    (∀ db chid info, (loaderModerationLogs db chid info).Pairwise createdAtGe) ∧
    ((loaderModerationLogs exDb120 "gaming" (getPageInfo (.int 1) (.int 50))).map
        (fun l => l.createdAt) = (List.range 50).map (fun i => 119 - i) ∧
      (loaderModerationLogs exDb120 "gaming" (getPageInfo (.int 3) (.int 50))).map
        (fun l => l.createdAt) = (List.range 20).map (fun i => 19 - i) ∧
      (loaderModerationLogs exDb120 "gaming" (getPageInfo (.int 3) (.int 50))).length = 20 ∧
      nextPage 1 50 120 = some 2 ∧ nextPage 2 50 120 = some 3 ∧
      nextPage 3 50 120 = none) := by
  refine ⟨⟨?_, ?_, ?_, ?_⟩, ?_, ?_, ?_⟩
  · cases pp with
    | absent => exact le_refl 1
    | nan => exact le_refl 1
    | int n => exact le_max_right n 1
  · cases psp with
    | absent => exact le_max_right (min defaultPageSize 100) 0
    | nan => exact (by decide : (0 : Int) ≤ defaultPageSize)
    | int s => exact le_max_right (min s 100) 0
  · cases psp with
    | absent => exact max_le (min_le_right defaultPageSize 100) (by decide)
    | nan => exact (by decide : defaultPageSize ≤ 100)
    | int s => exact max_le (min_le_right s 100) (by decide)
  · rfl
  · intro h
    cases psp with
    | nan => exact absurd rfl h
    | absent => cases pp <;> simp [getPageInfo, defaultPageSize]
    | int s => cases pp <;> simp [getPageInfo, defaultPageSize]
  · intro db chid info
    have hp : (List.insertionSort createdAtGe
        (db.moderationLogs.filter (fun l => l.channelId == chid))).Pairwise createdAtGe :=
      List.sorted_insertionSort createdAtGe
        (db.moderationLogs.filter (fun l => l.channelId == chid))
    exact List.Pairwise.sublist (List.take_sublist _ _)
      (List.Pairwise.sublist (List.drop_sublist _ _) hp)
  · refine ⟨by decide, by decide, by decide, by decide, by decide, by decide⟩

/-- Witness for C5 with parseable parameters: page=3, pageSize=50 gives
skip = 100 = (page - 1) * pageSize. -/
theorem C5_pagination_witness :
    (getPageInfo (.int 3) (.int 50)).skip =
      ((getPageInfo (.int 3) (.int 50)).page - 1) * (getPageInfo (.int 3) (.int 50)).pageSize :=
  (C5_pagination (.int 3) (.int 50)).2.1 (by decide)

/- ## Token-gating validators (lib/utils.server) -/

/-- JS truthiness of an optional string prop: `!x` holds when the prop is
absent or the empty string. -/
def strFalsy (s : Option String) : Bool := s.getD "" == ""

/-- JS `s.toLowerCase()` on the ASCII addresses involved here: lowercase each
character. -/
def jsToLower (s : String) : String := ⟨s.data.map Char.toLower⟩

/-- `validateErc1155`: false when chainId or contractAddress is falsy;
otherwise the result of the `supportsInterface(0xd9b67a26)` read whose
`.catch(() => false)` turns a failure into false. The read outcome is passed
in as `supportsInterfaceRead`; the unused `tokenId` prop is kept for
fidelity to the props shape. -/
def validateErc1155 (chainId contractAddress _tokenId : Option String)
    (supportsInterfaceRead : Except Unit Bool) : Bool :=
  if strFalsy chainId || strFalsy contractAddress then false
  else
    match supportsInterfaceRead with
    | .ok b => b
    | .error _ => false

/-- The hardcoded 721a deployer contract special-cased by `validateErc721`. -/
def deployers721a : String := "0x8ce608ce2b5004397faef1556bfe33bdfbe4696d"

/-- `validateErc721`: true for the hardcoded 721a contract (compared
lowercased, and checked before any presence check); otherwise false when
chainId or contractAddress is falsy, else the `supportsInterface(0x80ac58cd)`
read with `.catch(() => false)`. -/
def validateErc721 (chainId contractAddress : Option String)
    (supportsInterfaceRead : Except Unit Bool) : Bool :=
  if (contractAddress.map jsToLower).getD "" == jsToLower deployers721a then true
  else if strFalsy chainId || strFalsy contractAddress then false
  else
    match supportsInterfaceRead with
    | .ok b => b
    | .error _ => false

/-- The degen token address in the `alwaysAllow` list of `validateErc20`. -/
def degenAddress : String := "0xa8a30E0dafCA4156f28d96cCa5671a0eEcA5E407"

/-- `validateErc20`: false when chainId or contractAddress is falsy; true for
the allow-listed degen address (lowercased); otherwise the `allowance` read
with `.catch(() => false)` — the returned value is `anyAllowance !== false`,
so any read value (0 included) yields true and only a caught error yields
false. -/
def validateErc20 (chainId contractAddress : Option String)
    (allowanceRead : Except Unit Int) : Bool :=
  if strFalsy chainId || strFalsy contractAddress then false
  else if [jsToLower degenAddress].contains (jsToLower (contractAddress.getD "")) then true
  else
    match allowanceRead with
    | .ok _ => true
    | .error _ => false

/-- C8 counterexample: `validateErc721` with an absent chainId but the
hardcoded 721a contract address returns true — even when the on-chain read
would fail — contradicting the claim that each validator returns false
whenever chainId or contractAddress is absent. -/
theorem C8_counterexample :
    validateErc721 none (some "0x8CE608CE2B5004397FAEF1556BFE33BDFBE4696D")
      (.error ()) = true := by
  decide

/-- C8 (amended): each validator returns false, rather than erroring, when
the on-chain read fails, and false when chainId or contractAddress is absent
or empty — except for the hardcoded allow-lists checked first:
`validateErc721` returns true for the 721a contract even with an absent
chainId or a failing read, and `validateErc20` returns true for the degen
address without consulting the read. -/
theorem C8_validators_fail_closed (cid addr tid : Option String) :
    (validateErc1155 cid addr tid (.error ()) = false) ∧
    ((strFalsy cid || strFalsy addr) = true →
      ∀ rB, validateErc1155 cid addr tid rB = false) ∧
    (((addr.map jsToLower).getD "" == jsToLower deployers721a) = false →
      (validateErc721 cid addr (.error ()) = false) ∧
      ((strFalsy cid || strFalsy addr) = true →
        ∀ rB, validateErc721 cid addr rB = false)) ∧
    (((addr.map jsToLower).getD "" == jsToLower deployers721a) = true →
      ∀ rB, validateErc721 cid addr rB = true) ∧
    ((strFalsy cid || strFalsy addr) = true →
      ∀ rI, validateErc20 cid addr rI = false) ∧
    ((strFalsy cid || strFalsy addr) = false →
      ([jsToLower degenAddress].contains (jsToLower (addr.getD ""))) = false →
      validateErc20 cid addr (.error ()) = false) ∧
    ((strFalsy cid || strFalsy addr) = false →
      ([jsToLower degenAddress].contains (jsToLower (addr.getD ""))) = true →
      ∀ rI, validateErc20 cid addr rI = true) := by
  refine ⟨?_, ?_, ?_, ?_, ?_, ?_, ?_⟩
  · unfold validateErc1155
    split <;> rfl
  · intro hfal rB
    unfold validateErc1155
    rw [hfal]
    simp
  · intro hsp
    constructor
    · unfold validateErc721
      rw [hsp]
      simp only [Bool.false_eq_true, if_false]
      split <;> rfl
    · intro hfal rB
      unfold validateErc721
      rw [hsp, hfal]
      simp
  · intro hsp rB
    unfold validateErc721
    rw [hsp]
    simp
  · intro hfal rI
    unfold validateErc20
    rw [hfal]
    simp
  · intro hfal hdeg
    unfold validateErc20
    rw [hfal, hdeg]
    simp
  · intro hfal hdeg rI
    unfold validateErc20
    rw [hfal, hdeg]
    simp

/-- Witness for C8 at concrete inputs: a failed 1155 read yields false, and
an absent erc20 chainId yields false even when the read would return 0. -/
theorem C8_validators_fail_closed_witness :
    validateErc1155 (some "8453") (some "0x1234") (some "1") (.error ()) = false ∧
    validateErc20 none (some "0xdead") (.ok 0) = false := by
  constructor
  · exact (C8_validators_fail_closed (some "8453") (some "0x1234") (some "1")).1
  · exact (C8_validators_fail_closed none (some "0xdead") none).2.2.2.2.1 (by decide) (.ok 0)
